import Mathlib

/-!
Verification development for the AICarrierAdmin entitlement reconciliation
engine.  The definitions below are a shallow embedding of the TypeScript
sources:
  src/lib/userPlanService.ts      (checkPaymentExistsInUserPlans, addPaymentToUserPlans)
  src/lib/paymentService.ts       (updatePaymentStatus, createUserPlanFromPayment)
  src/lib/customClaimsService.ts  (setCustomClaims, updateCustomClaims,
                                   deleteCustomClaims, createCustomClaimsFromPayment)
  src/lib/jwtDecoder.ts           (getUserRoleFromJWT)
  src/components/PaymentAdmin.tsx (checkPaymentsInUserPlans, handleVerifyPayment,
                                   handleRejectPayment, the success-status filter)
Firestore collections are modelled as in-memory lists (addDoc appends,
updateDoc maps over the list); the JavaScript clock is threaded explicitly:
each `new Date()` call site becomes an explicit Date argument.
-/

namespace AICarrierAdmin

/-- Calendar dates at month granularity.  JavaScript Date setMonth/setFullYear
normalisation is modelled at the month level (month 11 + 1 rolls the year);
day-overflow normalisation is not needed by any claim and is not modelled. -/
structure Date where
  year : Nat
  month : Nat
  day : Nat
deriving DecidableEq, Repr

/-- JS `d.setMonth(d.getMonth() + 1)` at month granularity. -/
def addOneMonth (d : Date) : Date :=
  if d.month == 11 then { d with year := d.year + 1, month := 0 }
  else { d with month := d.month + 1 }

/-- JS `d.setFullYear(d.getFullYear() + 1)`. -/
def addOneYear (d : Date) : Date := { d with year := d.year + 1 }

/-- JS `d.setMonth(d.getMonth() + n)`. -/
def addMonthsN (d : Date) : Nat → Date
  | 0 => d
  | n + 1 => addOneMonth (addMonthsN d n)

/-- The two durations the engine ever infers. -/
inductive Duration
  | oneMonth
  | oneYear
deriving DecidableEq, Repr

def applyDuration (d : Date) : Duration → Date
  | .oneMonth => addOneMonth d
  | .oneYear => addOneYear d

/-- Does the character list start with the pattern? (helper for JS
`String.prototype.includes`). -/
def charsStartWith : List Char → List Char → Bool
  | [], _ => true
  | _ :: _, [] => false
  | p :: ps, c :: cs => p == c && charsStartWith ps cs

/-- Does the character list contain the pattern as a contiguous run? -/
def charsHave (pat : List Char) : List Char → Bool
  | [] => pat.isEmpty
  | c :: cs => charsStartWith pat (c :: cs) || charsHave pat cs

/-- JS `s.includes(pat)`. -/
def strHas (s pat : String) : Bool := charsHave pat.toList s.toList

/-- Lowercase a string (JS `toLowerCase`; ASCII letters, which is all the
source compares against). -/
def lowerStr (s : String) : String := String.mk (s.data.map Char.toLower)

/-- JS `name.toLowerCase().includes(key)` where `key` is a lowercase literal. -/
def nameHas (name key : String) : Bool := strHas (lowerStr name) key

/-- The inlined duration computation of userPlanService.ts lines 96-119 and
paymentService.ts lines 97-120 (both files carry the identical chain),
reduced to which duration branch fires. -/
def calculateDuration (planName : String) (amount : Nat) : Duration :=
  if nameHas planName "monthly" then .oneMonth
  else if nameHas planName "yearly" || nameHas planName "year" then .oneYear
  else if nameHas planName "premium" then
    if amount == 449 then .oneMonth
    else if amount == 4308 then .oneYear
    else .oneYear
  else if nameHas planName "ai fundamentals" || nameHas planName "genai" then .oneYear
  else .oneYear

/-- Modelled from the spec: the Duration Inference rule list of spec section
4.2, written from the rule text (first match wins; "contains" read
case-insensitively, as the spec worked examples require), for comparison
against the code definition calculateDuration. -/
def specDuration (planName : String) (amount : Nat) : Duration :=
  if nameHas planName "monthly" then .oneMonth
  else if nameHas planName "yearly" || nameHas planName "year" then .oneYear
  else if nameHas planName "premium" then
    if amount == 449 then .oneMonth
    else if amount == 4308 then .oneYear
    else .oneYear
  else if nameHas planName "ai fundamentals" || nameHas planName "genai" then .oneYear
  else .oneYear

/-- A validity window.  The source computes it from two successive
`new Date()` samples: `now` (userPlanService.ts line 92, stored as startDate)
and `base` (line 93, mutated into the expiry date). -/
structure Window where
  startDate : Date
  expiryDate : Date
deriving DecidableEq, Repr

/-- The window produced by the inlined block: startDate is the first clock
sample, expiryDate is the second clock sample advanced by the inferred
duration. -/
def computeWindow (planName : String) (amount : Nat) (now base : Date) : Window :=
  { startDate := now, expiryDate := applyDuration base (calculateDuration planName amount) }

/-- Payment verification state, payments collection field `status`
(on-the-wire strings "pending" | "success" | "rejected"). -/
inductive PayStatus
  | pendingPay
  | successPay
  | rejectedPay
deriving DecidableEq, Repr

/-- Entitlement state, userPlans collection field `status`
(on-the-wire strings "active" | "expired" | "cancelled"). -/
inductive PlanStatus
  | active
  | expired
  | cancelled
deriving DecidableEq, Repr

/-- A payments-collection document (PaymentData in both services; the doc id
is carried in `id`).  Server timestamps are not modelled: no claim reads
them. -/
structure PaymentData where
  id : String
  amount : Nat
  payment_id : String
  payment_method : String
  payment_screenshot_url : String
  plan_name : String
  remarks : String
  status : PayStatus
  user_email : String
  user_id : String
  utr_number : String
  verified_by : Option String
deriving DecidableEq, Repr

/-- Look a payments document up by its document id (Firestore doc lookup /
JS Array.prototype.find). -/
def findById : List PaymentData → String → Option PaymentData
  | [], _ => none
  | q :: t, pid => if q.id == pid then some q else findById t pid

/-- A userPlans-collection document.  `amount` is stored as a string
(`amount.toString()` in both writers).  The fields written only by
addPaymentToUserPlans are Options: createUserPlanFromPayment omits them. -/
structure UserPlan where
  userId : String
  userEmail : String
  planName : String
  status : PlanStatus
  startDate : Date
  expiryDate : Date
  paymentId : String
  amount : String
  paymentMethod : Option String
  utrNumber : Option String
  paymentScreenshotUrl : Option String
  planRemarks : Option String
  verifiedBy : Option String
deriving DecidableEq, Repr

/-- userPlanService.ts lines 45-60: Firestore query
`where paymentId == paymentId, where amount == amount.toString()`,
reported as non-emptiness of the result set. -/
def checkPaymentExistsInUserPlans (plans : List UserPlan) (paymentId : String) (amount : Nat) : Bool :=
  plans.any (fun up => up.paymentId == paymentId && up.amount == toString amount)

/-- Number of stored plans matching a dedup key (payment reference, amount as
stored string). -/
def countKeyS (plans : List UserPlan) (pidS amtS : String) : Nat :=
  (plans.filter (fun up => up.paymentId == pidS && up.amount == amtS)).length

/-- Result of addPaymentToUserPlans: `ok` is `{success: true, id}` and
`alreadyExists` is `{success: false, error: "Payment already exists in user
plans"}`. -/
inductive AddResult
  | ok
  | alreadyExists
deriving DecidableEq, Repr

/-- The userPlans document built by addPaymentToUserPlans lines 122-140. -/
def mkUserPlanFromPayment (pd : PaymentData) (w : Window) : UserPlan :=
  { userId := pd.user_id
    userEmail := pd.user_email
    planName := pd.plan_name
    status := .active
    startDate := w.startDate
    expiryDate := w.expiryDate
    paymentId := pd.payment_id
    amount := toString pd.amount
    paymentMethod := some pd.payment_method
    utrNumber := some pd.utr_number
    paymentScreenshotUrl := some pd.payment_screenshot_url
    planRemarks := some pd.remarks
    verifiedBy := pd.verified_by }

/-- userPlanService.ts lines 84-148.  `now` and `base` are the two
`new Date()` samples of lines 92-93; addDoc appends to the collection. -/
def addPaymentToUserPlans (now base : Date) (pd : PaymentData) (plans : List UserPlan) :
    AddResult × List UserPlan :=
  if checkPaymentExistsInUserPlans plans pd.payment_id pd.amount then
    (.alreadyExists, plans)
  else
    (.ok, plans ++ [mkUserPlanFromPayment pd (computeWindow pd.plan_name pd.amount now base)])

/-- System state: the payments ledger and the userPlans entitlement store. -/
structure SysState where
  payments : List PaymentData
  userPlans : List UserPlan
deriving DecidableEq, Repr

/-- paymentService.ts lines 52-64: the update object written by
updatePaymentStatus (verified_by and remarks only when truthy). -/
def applyStatusUpdate (p : PaymentData) (st : PayStatus) (verifiedBy remarks : Option String) :
    PaymentData :=
  { p with
    status := st
    verified_by := match verifiedBy with | some v => some v | none => p.verified_by
    remarks := match remarks with | some r => r | none => p.remarks }

/-- paymentService.ts lines 80-141: read the payment document and, when it
exists, append a userPlans document unconditionally (no dedup check, no
status check); the fields of addPaymentToUserPlans that this writer omits are
none. -/
def createUserPlanFromPayment (now base : Date) (paymentId : String) (s : SysState) : SysState :=
  match findById s.payments paymentId with
  | none => s
  | some pd =>
      let w := computeWindow pd.plan_name pd.amount now base
      { s with userPlans := s.userPlans ++ [{
          userId := pd.user_id
          userEmail := pd.user_email
          planName := pd.plan_name
          status := .active
          startDate := w.startDate
          expiryDate := w.expiryDate
          paymentId := pd.payment_id
          amount := toString pd.amount
          paymentMethod := none
          utrNumber := none
          paymentScreenshotUrl := none
          planRemarks := none
          verifiedBy := none }] }

/-- Result of updatePaymentStatus: `{success: true}` or the caught-error
`{success: false}` when updateDoc rejects (document absent). -/
inductive UpdateResult
  | ok
  | err
deriving DecidableEq, Repr

/-- paymentService.ts lines 48-77.  The requested status is written
unconditionally (there is no check of the current status); when the new
status is success, createUserPlanFromPayment runs as a follow-on. -/
def updatePaymentStatus (paymentId : String) (st : PayStatus) (verifiedBy remarks : Option String)
    (now base : Date) (s : SysState) : UpdateResult × SysState :=
  if s.payments.any (fun p => p.id == paymentId) then
    let s1 : SysState :=
      { s with payments := s.payments.map (fun p =>
          if p.id == paymentId then applyStatusUpdate p st verifiedBy remarks else p) }
    if st == .successPay then (.ok, createUserPlanFromPayment now base paymentId s1)
    else (.ok, s1)
  else
    (.err, s)

/-- JS `s.trim()`: strip leading and trailing whitespace. -/
def jsTrim (s : String) : String :=
  String.mk (((s.data.dropWhile Char.isWhitespace).reverse.dropWhile Char.isWhitespace).reverse)

/-- PaymentAdmin.tsx: the update written by handleVerifyPayment lines 141-147
(status success, verifier stamp, notes or a default note when blank). -/
def verifyUpdate (adminEmail notes : String) (q : PaymentData) : PaymentData :=
  { q with
    status := .successPay
    verified_by := some adminEmail
    remarks := if jsTrim notes == "" then "Payment verified by " ++ adminEmail else jsTrim notes }

/-- PaymentAdmin.tsx: the update written by handleRejectPayment lines 236-242
(status rejected, verifier stamp, trimmed reason). -/
def rejectUpdate (adminEmail notes : String) (q : PaymentData) : PaymentData :=
  { q with
    status := .rejectedPay
    verified_by := some adminEmail
    remarks := jsTrim notes }

/-- PaymentAdmin.tsx line 338: the Verify button is disabled unless the
payment status is pending; the same guard sits on the Reject button
(line 350). -/
def verifyButtonEnabled (p : PaymentData) : Bool := p.status == .pendingPay

/-- The verify action as reachable through the admin UI: the dialog that runs
handleVerifyPayment can only be opened from the Verify button, which is
enabled only for pending payments; once open, handleVerifyPayment writes the
verifyUpdate to the payments document unconditionally. -/
def uiVerifyPayment (s : SysState) (paymentId adminEmail notes : String) : SysState :=
  match findById s.payments paymentId with
  | none => s
  | some p =>
      if verifyButtonEnabled p then
        { s with payments := s.payments.map (fun q =>
            if q.id == paymentId then verifyUpdate adminEmail notes q else q) }
      else s

/-- The reject action as reachable through the admin UI: the Reject button is
enabled only for pending payments, and handleRejectPayment refuses a blank
reason before writing. -/
def uiRejectPayment (s : SysState) (paymentId adminEmail notes : String) : SysState :=
  match findById s.payments paymentId with
  | none => s
  | some p =>
      if verifyButtonEnabled p && !(jsTrim notes == "") then
        { s with payments := s.payments.map (fun q =>
            if q.id == paymentId then rejectUpdate adminEmail notes q else q) }
      else s

/-- Outcome of handleRejectPayment: the validation toast (no write) or the
rejected write. -/
inductive RejectOutcome
  | validationError
  | rejectedDone
deriving DecidableEq, Repr

/-- PaymentAdmin.tsx lines 221-261, handleRejectPayment: if no payment is
selected or the reason trims to empty, show the validation error and return
without writing; otherwise write the rejectUpdate to the selected document. -/
def handleRejectPayment (selected : Option PaymentData) (adminEmail notes : String)
    (payments : List PaymentData) : RejectOutcome × List PaymentData :=
  match selected with
  | none => (.validationError, payments)
  | some p =>
      if jsTrim notes == "" then (.validationError, payments)
      else
        (.rejectedDone, payments.map (fun q =>
          if q.id == p.id then rejectUpdate adminEmail notes q else q))

/-- PaymentAdmin.tsx line 70: the composite key string
`payment.payment_id + "_" + payment.amount`. -/
def payKey (p : PaymentData) : String := p.payment_id ++ "_" ++ toString p.amount

/-- PaymentAdmin.tsx line 60: the key of a stored userPlans document,
`data.paymentId + "_" + data.amount` (amount already a string). -/
def userPlanKey (up : UserPlan) : String := up.paymentId ++ "_" ++ up.amount

/-- PaymentAdmin.tsx lines 56-63: keys of the userPlans documents whose
paymentId and amount are both truthy (non-empty strings). -/
def existingPlanKeys (plans : List UserPlan) : List String :=
  (plans.filter (fun up => !(up.paymentId == "") && !(up.amount == ""))).map userPlanKey

/-- One step of the existsMap construction loop (lines 68-75): success
payments get an entry keyed by payKey whose value records whether some stored
plan shares the key; other payments add nothing.  The JS object is modelled
as a function from keys to optional values. -/
def driftStep (keys : List String) (m : String → Option Bool) (p : PaymentData) :
    String → Option Bool :=
  if p.status == .successPay then
    fun k => if k == payKey p then some (keys.contains (payKey p)) else m k
  else m

/-- PaymentAdmin.tsx lines 50-82, checkPaymentsInUserPlans: build the
existsMap from the stored plans and the payment list it is given.  A value
`some false` is a missing-activation entry; `none` means no entry. -/
def checkPaymentsInUserPlans (plans : List UserPlan) (payments : List PaymentData) :
    String → Option Bool :=
  payments.foldl (driftStep (existingPlanKeys plans)) (fun _ => none)

/-- PaymentAdmin.tsx lines 96-99: the component filters out success payments
before handing the list to checkPaymentsInUserPlans (line 105). -/
def filterNonSuccess (payments : List PaymentData) : List PaymentData :=
  payments.filter (fun p => !(p.status == .successPay))

/-- The drift read path as actually wired in the component: the snapshot
listener filters the ledger to non-success payments, then runs
checkPaymentsInUserPlans on the filtered list. -/
def wiredDriftCheck (plans : List UserPlan) (payments : List PaymentData) :
    String → Option Bool :=
  checkPaymentsInUserPlans plans (filterNonSuccess payments)

/-- The decoded payload of a Firebase ID token (jwtDecoder.ts); only the
custom role claim matters to the engine. -/
structure DecodedJWT where
  role : Option String
deriving DecidableEq, Repr

/-- The signed-in user as the services see it: the bearer string returned by
getIdToken, and the result of decodeJWT on it (none when malformed). -/
structure AuthUser where
  bearer : String
  decoded : Option DecodedJWT
deriving DecidableEq, Repr

/-- Ambient auth state (auth.currentUser). -/
structure AuthEnv where
  currentUser : Option AuthUser
deriving DecidableEq, Repr

/-- customClaimsService.ts lines 35-48, getAuthToken. -/
def getAuthToken (env : AuthEnv) : Option String := env.currentUser.map (fun u => u.bearer)

/-- customClaimsService.ts lines 51-62 with jwtDecoder.ts lines 52-55:
getAuthToken, then decodeJWT(token)?.role, null at every failure point. -/
def getUserRoleFromToken (env : AuthEnv) : Option String :=
  match env.currentUser with
  | none => none
  | some u =>
      match u.decoded with
      | none => none
      | some j => j.role

/-- The CustomClaims input object (customClaimsService.ts interface); dates
are modelled as Date rather than ISO strings. -/
structure CustomClaims where
  is_premium : Bool
  plan_name : String
  start_date : Date
  end_date : Date
  role : String
deriving DecidableEq, Repr

/-- The claims object transmitted by setCustomClaims: the input fields with
the role replaced by the role decoded from the caller JWT (string or null). -/
structure SentClaims where
  is_premium : Bool
  plan_name : String
  start_date : Date
  end_date : Date
  role : Option String
deriving DecidableEq, Repr

/-- Partial<CustomClaims>, the input of updateCustomClaims; after the role
overwrite the same shape is what goes on the wire. -/
structure PartialClaims where
  is_premium : Option Bool
  plan_name : Option String
  start_date : Option Date
  end_date : Option Date
  role : Option String
deriving DecidableEq, Repr

/-- Errors of the claims service; accessDenied carries the thrown message. -/
inductive CCError
  | accessDenied (msg : String)
deriving DecidableEq, Repr

/-- A network request the claims service sends to the external authorization
service. -/
inductive CCRequest
  | setReq (userId : String) (claims : SentClaims)
  | updateReq (userId : String) (claims : PartialClaims)
  | deleteReq (userId : String) (fields : List String)
deriving DecidableEq, Repr

/-- The role field a request transmits, when it carries one. -/
def sentRole : CCRequest → Option String
  | .setReq _ c => c.role
  | .updateReq _ c => c.role
  | .deleteReq _ _ => none

/-- customClaimsService.ts lines 134-178, setCustomClaims up to the network
boundary: re-derive the caller role from the JWT, throw before any request
when it is not admin, otherwise send the claims with the role overwritten by
the decoded role. -/
def setCustomClaims (env : AuthEnv) (userId : String) (c : CustomClaims) :
    Except CCError CCRequest :=
  let userRole := getUserRoleFromToken env
  if userRole ≠ some "admin" then
    .error (.accessDenied "Access denied: Only admin users can set custom claims")
  else
    .ok (.setReq userId
      { is_premium := c.is_premium
        plan_name := c.plan_name
        start_date := c.start_date
        end_date := c.end_date
        role := userRole })

/-- customClaimsService.ts lines 181-225, updateCustomClaims up to the
network boundary. -/
def updateCustomClaims (env : AuthEnv) (userId : String) (c : PartialClaims) :
    Except CCError CCRequest :=
  let userRole := getUserRoleFromToken env
  if userRole ≠ some "admin" then
    .error (.accessDenied "Access denied: Only admin users can update custom claims")
  else
    .ok (.updateReq userId { c with role := userRole })

/-- customClaimsService.ts lines 228-266, deleteCustomClaims up to the
network boundary. -/
def deleteCustomClaims (env : AuthEnv) (userId : String) (fields : List String) :
    Except CCError CCRequest :=
  let userRole := getUserRoleFromToken env
  if userRole ≠ some "admin" then
    .error (.accessDenied "Access denied: Only admin users can delete custom claims")
  else
    .ok (.deleteReq userId fields)

/-- Run a claims call against the external boundary, recorded as the list of
requests actually sent (the snapshot is owned by the external service and is
a function of the requests it receives): an error means nothing was sent. -/
def runClaimsCall (r : Except CCError CCRequest) (log : List CCRequest) :
    Except CCError Unit × List CCRequest :=
  match r with
  | .error e => (.error e, log)
  | .ok req => (.ok (), log ++ [req])

/-- customClaimsService.ts lines 278-287: the plan-name to duration-in-months
table of createCustomClaimsFromPayment. -/
def planDurationsTable (planName : String) : Option Nat :=
  if planName == "Premium - Monthly (₹449)" then some 1
  else if planName == "Premium - Yearly (₹4308)" then some 12
  else if planName == "AI Fundamentals (₹30000)" then some 12
  else if planName == "PREMIUM_MONTHLY" then some 1
  else if planName == "PREMIUM_YEARLY" then some 12
  else if planName == "PREMIUM_GENAI_DEV_01" then some 12
  else none

/-- customClaimsService.ts line 287: `planDurations[plan_name] || 1` — the
claims end date defaults to one month for names outside the table. -/
def claimsDurationMonths (planName : String) : Nat :=
  (planDurationsTable planName).getD 1

/-- customClaimsService.ts lines 293-300: plan-name mapping with default
PREMIUM_MONTHLY. -/
def planMapping (planName : String) : String :=
  if planName == "Premium - Monthly (₹449)" then "PREMIUM_MONTHLY"
  else if planName == "Premium - Yearly (₹4308)" then "PREMIUM_YEARLY"
  else if planName == "AI Fundamentals (₹30000)" then "PREMIUM_GENAI_DEV_01"
  else if planName == "PREMIUM_MONTHLY" then "PREMIUM_MONTHLY"
  else if planName == "PREMIUM_YEARLY" then "PREMIUM_YEARLY"
  else if planName == "PREMIUM_GENAI_DEV_01" then "PREMIUM_GENAI_DEV_01"
  else "PREMIUM_MONTHLY"

/-- customClaimsService.ts lines 269-309, createCustomClaimsFromPayment:
start date is the sampled now, end date is now advanced by the table
duration in months; role is the literal "user". -/
def createCustomClaimsFromPayment (now : Date) (planName : String) : CustomClaims :=
  { is_premium := true
    plan_name := planMapping planName
    start_date := now
    end_date := addMonthsN now (claimsDurationMonths planName)
    role := "user" }

/-- Concrete date used by witnesses and counterexamples. -/
def d0 : Date := { year := 2025, month := 0, day := 1 }

/-- A concrete pending payment. -/
def cPendingPay : PaymentData :=
  { id := "doc1"
    amount := 449
    payment_id := "pay_449"
    payment_method := "UPI"
    payment_screenshot_url := ""
    plan_name := "Premium - Monthly (₹449)"
    remarks := ""
    status := .pendingPay
    user_email := "user@example.com"
    user_id := "u1"
    utr_number := "UTR1"
    verified_by := none }

/-- A concrete success payment with the same dedup key. -/
def cSuccessPay : PaymentData := { cPendingPay with status := .successPay }

/-- A concrete rejected payment. -/
def cRejectedPay : PaymentData := { cPendingPay with status := .rejectedPay }

/-- A concrete authenticated non-admin caller. -/
def nonAdminEnv : AuthEnv :=
  { currentUser := some { bearer := "tok-user", decoded := some { role := some "user" } } }

/-- A concrete authenticated admin caller. -/
def adminEnv : AuthEnv :=
  { currentUser := some { bearer := "tok-admin", decoded := some { role := some "admin" } } }

/-- Concrete claims input whose role the operator set to "user". -/
def cClaims : CustomClaims :=
  { is_premium := true
    plan_name := "PREMIUM_MONTHLY"
    start_date := d0
    end_date := addOneMonth d0
    role := "user" }

/-- Concrete partial claims input carrying an operator-chosen role. -/
def cPartial : PartialClaims :=
  { is_premium := none
    plan_name := none
    start_date := none
    end_date := none
    role := some "user" }

/-- The concrete request setCustomClaims sends for adminEnv, "u2", cClaims. -/
def cSetReq : CCRequest :=
  .setReq "u2"
    { is_premium := true
      plan_name := "PREMIUM_MONTHLY"
      start_date := d0
      end_date := addOneMonth d0
      role := some "admin" }

/-- The dedup query is empty exactly when no stored plan matches the key. -/
theorem checkExists_false_iff (plans : List UserPlan) (pid : String) (amt : Nat) :
    checkPaymentExistsInUserPlans plans pid amt = false
      ↔ countKeyS plans pid (toString amt) = 0 := by
  induction plans with
  | nil => simp [checkPaymentExistsInUserPlans, countKeyS]
  | cons up rest ih =>
    by_cases h : (up.paymentId == pid && up.amount == toString amt) = true
    · simp [checkPaymentExistsInUserPlans, countKeyS, h]
    · simp only [Bool.not_eq_true] at h
      rw [checkPaymentExistsInUserPlans, countKeyS] at ih ⊢
      simp [List.any_cons, List.filter_cons, h, ih]

/-- Key counts add over store concatenation. -/
theorem countKeyS_append (l1 l2 : List UserPlan) (pidS amtS : String) :
    countKeyS (l1 ++ l2) pidS amtS = countKeyS l1 pidS amtS + countKeyS l2 pidS amtS := by
  simp [countKeyS, List.filter_append]

/-- Updating the matching document in place commutes with looking it up,
whenever the update keeps the document id. -/
theorem findById_map_update (l : List PaymentData) (pid : String)
    (g : PaymentData → PaymentData) (hg : ∀ q, (g q).id = q.id) :
    findById (l.map (fun q => if q.id == pid then g q else q)) pid
      = (findById l pid).map g := by
  induction l with
  | nil => rfl
  | cons q t ih =>
    by_cases h : (q.id == pid) = true
    · have h2 : ((g q).id == pid) = true := by rw [hg]; exact h
      simp [findById, h, h2]
    · simp [findById, h]
      simpa using ih

/-- An existsMap entry holding the value determined by its key survives the
rest of the construction loop. -/
theorem driftStep_stable (keys : List String) (l : List PaymentData)
    (m : String → Option Bool) (k : String)
    (h : m k = some (keys.contains k)) :
    (l.foldl (driftStep keys) m) k = some (keys.contains k) := by
  induction l generalizing m with
  | nil => exact h
  | cons p t ih =>
    simp only [List.foldl]
    apply ih
    unfold driftStep
    by_cases hs : (p.status == PayStatus.successPay) = true
    · by_cases hk : (k == payKey p) = true
      · have hk2 : k = payKey p := by simpa using hk
        simp [hs, hk, hk2]
      · simp [hs, hk, h]
    · simp [hs, h]

/-- Every success payment handed to the construction loop ends with an entry
whose value records whether a stored plan shares its key. -/
theorem driftStep_present (keys : List String) (l : List PaymentData)
    (m : String → Option Bool) (p : PaymentData)
    (hmem : p ∈ l) (hs : p.status = .successPay) :
    (l.foldl (driftStep keys) m) (payKey p) = some (keys.contains (payKey p)) := by
  induction l generalizing m with
  | nil => cases hmem
  | cons q t ih =>
    rcases List.mem_cons.mp hmem with hq | ht
    · subst hq
      simp only [List.foldl]
      apply driftStep_stable
      simp [driftStep, hs]
    · simp only [List.foldl]
      exact ih _ ht

/-- Entries of the existsMap only ever come from success payments of the
input list (or were already in the accumulator). -/
theorem driftStep_sound (keys : List String) (l : List PaymentData)
    (m : String → Option Bool) (k : String)
    (h : ((l.foldl (driftStep keys) m) k).isSome) :
    (m k).isSome ∨ ∃ p, p ∈ l ∧ p.status = .successPay ∧ payKey p = k := by
  induction l generalizing m with
  | nil => left; simpa using h
  | cons q t ih =>
    rcases ih _ (by simpa using h) with hm | ⟨p, hp, hps, hpk⟩
    · unfold driftStep at hm
      by_cases hs : (q.status == PayStatus.successPay) = true
      · simp only [hs, if_true] at hm
        by_cases hk : (k == payKey q) = true
        · right
          refine ⟨q, List.mem_cons_self q t, by simpa using hs, ?_⟩
          have hk2 : k = payKey q := by simpa using hk
          exact hk2.symm
        · left
          simpa [hk] using hm
      · left
        simpa [hs] using hm
    · right
      exact ⟨p, List.mem_cons_of_mem q hp, hps, hpk⟩

/-- C1: starting from a store with no record for the dedup key
(payment reference, amount), activating a payment with that key succeeds and
appends one record with status active, and a second activation with the same
key returns the already-exists error, performs no write, and leaves exactly
one record with that key in the store. -/
theorem c1_activate_twice_single_record (plans : List UserPlan) (p1 p2 : PaymentData)
    (n1 b1 n2 b2 : Date)
    (hpid : p1.payment_id = p2.payment_id) (hamt : p1.amount = p2.amount)
    (h0 : countKeyS plans p1.payment_id (toString p1.amount) = 0) :
    (addPaymentToUserPlans n1 b1 p1 plans).1 = .ok
    ∧ (∃ rec, (addPaymentToUserPlans n1 b1 p1 plans).2 = plans ++ [rec]
        ∧ rec.status = .active ∧ rec.paymentId = p1.payment_id
        ∧ rec.amount = toString p1.amount)
    ∧ (addPaymentToUserPlans n2 b2 p2 ((addPaymentToUserPlans n1 b1 p1 plans).2)).1
        = .alreadyExists
    ∧ (addPaymentToUserPlans n2 b2 p2 ((addPaymentToUserPlans n1 b1 p1 plans).2)).2
        = (addPaymentToUserPlans n1 b1 p1 plans).2
    ∧ countKeyS (addPaymentToUserPlans n2 b2 p2 ((addPaymentToUserPlans n1 b1 p1 plans).2)).2
        p1.payment_id (toString p1.amount) = 1 := by
  have hc1 : checkPaymentExistsInUserPlans plans p1.payment_id p1.amount = false :=
    (checkExists_false_iff plans p1.payment_id p1.amount).mpr h0
  have hfirst : addPaymentToUserPlans n1 b1 p1 plans
      = (.ok, plans ++ [mkUserPlanFromPayment p1 (computeWindow p1.plan_name p1.amount n1 b1)]) := by
    simp [addPaymentToUserPlans, hc1]
  have hrecpid : (mkUserPlanFromPayment p1 (computeWindow p1.plan_name p1.amount n1 b1)).paymentId
      = p1.payment_id := rfl
  have hrecamt : (mkUserPlanFromPayment p1 (computeWindow p1.plan_name p1.amount n1 b1)).amount
      = toString p1.amount := rfl
  have hc2 : checkPaymentExistsInUserPlans
      (plans ++ [mkUserPlanFromPayment p1 (computeWindow p1.plan_name p1.amount n1 b1)])
      p2.payment_id p2.amount = true := by
    unfold checkPaymentExistsInUserPlans
    rw [List.any_append]
    apply Bool.or_eq_true_iff.mpr
    right
    simp [mkUserPlanFromPayment, hpid, hamt]
  have hsecond : addPaymentToUserPlans n2 b2 p2
      (plans ++ [mkUserPlanFromPayment p1 (computeWindow p1.plan_name p1.amount n1 b1)])
      = (.alreadyExists,
         plans ++ [mkUserPlanFromPayment p1 (computeWindow p1.plan_name p1.amount n1 b1)]) := by
    simp [addPaymentToUserPlans, hc2]
  have hcount : countKeyS
      (plans ++ [mkUserPlanFromPayment p1 (computeWindow p1.plan_name p1.amount n1 b1)])
      p1.payment_id (toString p1.amount) = 1 := by
    rw [countKeyS_append, h0]
    simp [countKeyS, mkUserPlanFromPayment]
  refine ⟨by rw [hfirst], ⟨mkUserPlanFromPayment p1 (computeWindow p1.plan_name p1.amount n1 b1),
    by rw [hfirst], rfl, hrecpid, hrecamt⟩, ?_, ?_, ?_⟩
  · rw [hfirst]
    simp only
    rw [hsecond]
  · rw [hfirst]
    simp only
    rw [hsecond]
  · rw [hfirst]
    simp only
    rw [hsecond]
    exact hcount

/-- C1 witness: activating the concrete payment cPendingPay twice on the
empty store leaves exactly one record and the second call reports the
duplicate. -/
theorem c1_witness :
    (addPaymentToUserPlans d0 d0 cPendingPay []).1 = .ok
    ∧ (∃ rec, (addPaymentToUserPlans d0 d0 cPendingPay []).2 = [] ++ [rec]
        ∧ rec.status = .active ∧ rec.paymentId = cPendingPay.payment_id
        ∧ rec.amount = toString cPendingPay.amount)
    ∧ (addPaymentToUserPlans d0 d0 cPendingPay ((addPaymentToUserPlans d0 d0 cPendingPay []).2)).1
        = .alreadyExists
    ∧ (addPaymentToUserPlans d0 d0 cPendingPay ((addPaymentToUserPlans d0 d0 cPendingPay []).2)).2
        = (addPaymentToUserPlans d0 d0 cPendingPay []).2
    ∧ countKeyS (addPaymentToUserPlans d0 d0 cPendingPay
          ((addPaymentToUserPlans d0 d0 cPendingPay []).2)).2
        cPendingPay.payment_id (toString cPendingPay.amount) = 1 :=
  c1_activate_twice_single_record [] cPendingPay cPendingPay d0 d0 d0 d0 rfl rfl (by decide)

/-- C2 counterexample: the claim says every creation path keeps at most one
EntitlementRecord per dedup key, including the automatic creation inside
updatePaymentStatus.  It is false: createUserPlanFromPayment performs no
dedup check, so calling updatePaymentStatus twice with success on the same
payment leaves two userPlans records with the dedup key ("pay_449", "449"). -/
theorem c2_counterexample_double_success_update :
    countKeyS ((updatePaymentStatus "doc1" .successPay (some "a@b.c") none d0 d0
        ((updatePaymentStatus "doc1" .successPay (some "a@b.c") none d0 d0
          { payments := [cPendingPay], userPlans := [] }).2)).2).userPlans "pay_449" "449" = 2 := by
  decide

/-- C2 as amended: the manual path addPaymentToUserPlans preserves the
at-most-one-record-per-dedup-key invariant (it refuses to insert when the
key exists); the automatic createUserPlanFromPayment path does not.  Neither
path inspects the source payment status: the second conjunct shows
addPaymentToUserPlans accepting a pending payment. -/
theorem c2_amended_manual_path_preserves_dedup :
    (∀ (plans : List UserPlan) (pd : PaymentData) (n b : Date) (pidS amtS : String),
      countKeyS plans pidS amtS ≤ 1 →
      countKeyS (addPaymentToUserPlans n b pd plans).2 pidS amtS ≤ 1)
    ∧ (addPaymentToUserPlans d0 d0 cPendingPay []).1 = .ok := by
  constructor
  · intro plans pd n b pidS amtS h
    by_cases hc : checkPaymentExistsInUserPlans plans pd.payment_id pd.amount = true
    · simpa [addPaymentToUserPlans, hc] using h
    · have hc0 : checkPaymentExistsInUserPlans plans pd.payment_id pd.amount = false := by
        simpa using hc
      have h0 : countKeyS plans pd.payment_id (toString pd.amount) = 0 :=
        (checkExists_false_iff plans pd.payment_id pd.amount).mp hc0
      have hres : (addPaymentToUserPlans n b pd plans).2
          = plans ++ [mkUserPlanFromPayment pd (computeWindow pd.plan_name pd.amount n b)] := by
        simp [addPaymentToUserPlans, hc0]
      rw [hres, countKeyS_append]
      by_cases hm : ((mkUserPlanFromPayment pd (computeWindow pd.plan_name pd.amount n b)).paymentId == pidS
          && (mkUserPlanFromPayment pd (computeWindow pd.plan_name pd.amount n b)).amount == amtS) = true
      · have hp : pd.payment_id = pidS := by
          have := (Bool.and_eq_true _ _).mp hm
          simpa [mkUserPlanFromPayment] using this.1
        have ha : toString pd.amount = amtS := by
          have := (Bool.and_eq_true _ _).mp hm
          simpa [mkUserPlanFromPayment] using this.2
        have hz : countKeyS plans pidS amtS = 0 := by
          rw [← hp, ← ha]
          exact h0
        have hone : countKeyS [mkUserPlanFromPayment pd (computeWindow pd.plan_name pd.amount n b)] pidS amtS ≤ 1 := by
          simp [countKeyS, List.filter]
          by_cases hq : ((mkUserPlanFromPayment pd (computeWindow pd.plan_name pd.amount n b)).paymentId == pidS
              && (mkUserPlanFromPayment pd (computeWindow pd.plan_name pd.amount n b)).amount == amtS) = true
          · simp [hq]
          · simp [hq]
        omega
      · have hzero : countKeyS [mkUserPlanFromPayment pd (computeWindow pd.plan_name pd.amount n b)] pidS amtS = 0 := by
          simp only [Bool.not_eq_true] at hm
          simp [countKeyS, List.filter, hm]
        omega
  · decide

/-- C2 witness for the amended invariant statement: one activation on the
empty store leaves at most one record for the concrete dedup key. -/
theorem c2_amended_witness :
    countKeyS (addPaymentToUserPlans d0 d0 cPendingPay []).2 "pay_449" "449" ≤ 1 :=
  c2_amended_manual_path_preserves_dedup.1 [] cPendingPay d0 d0 "pay_449" "449" (by decide)

/-- C3 counterexample: the claim says a terminal (success or rejected)
payment never changes again and a verify on a non-pending payment fails with
InvalidState leaving the record unchanged.  The service updatePaymentStatus
has no status guard: applied to a rejected payment it reports ok and
overwrites the status with success. -/
theorem c3_counterexample_rejected_to_success :
    (updatePaymentStatus "doc1" .successPay (some "x@y.z") none d0 d0
        { payments := [cRejectedPay], userPlans := [] }).1 = .ok
    ∧ ((findById (updatePaymentStatus "doc1" .successPay (some "x@y.z") none d0 d0
        { payments := [cRejectedPay], userPlans := [] }).2.payments "doc1").map
          (fun q => q.status)) = some .successPay := by
  decide

/-- C3 as amended: the pending-only restriction is enforced in the admin UI,
not in the service.  Through the UI, verify and reject are no-ops on a
non-pending payment (the buttons are disabled; no InvalidState error exists),
and on a pending payment verify writes status success and reject (with a
non-blank reason) writes status rejected. -/
theorem c3_amended_ui_transitions_only_from_pending (s : SysState) (pid a n : String)
    (p : PaymentData) (hfind : findById s.payments pid = some p) :
    (p.status ≠ .pendingPay →
      uiVerifyPayment s pid a n = s ∧ uiRejectPayment s pid a n = s)
    ∧ (p.status = .pendingPay →
      findById (uiVerifyPayment s pid a n).payments pid = some (verifyUpdate a n p)
      ∧ (verifyUpdate a n p).status = .successPay)
    ∧ (p.status = .pendingPay → jsTrim n ≠ "" →
      findById (uiRejectPayment s pid a n).payments pid = some (rejectUpdate a n p)
      ∧ (rejectUpdate a n p).status = .rejectedPay) := by
  refine ⟨?_, ?_, ?_⟩
  · intro hnp
    have hb : verifyButtonEnabled p = false := by
      cases hps : p.status with
      | pendingPay => exact absurd hps hnp
      | successPay => simp [verifyButtonEnabled, hps]
      | rejectedPay => simp [verifyButtonEnabled, hps]
    constructor
    · simp [uiVerifyPayment, hfind, hb]
    · simp [uiRejectPayment, hfind, hb]
  · intro hps
    have hb : verifyButtonEnabled p = true := by simp [verifyButtonEnabled, hps]
    have hmap : findById (s.payments.map (fun q => if q.id == pid then verifyUpdate a n q else q)) pid
        = some (verifyUpdate a n p) := by
      rw [findById_map_update s.payments pid (verifyUpdate a n) (fun q => rfl), hfind]
      rfl
    refine ⟨?_, rfl⟩
    simp only [uiVerifyPayment, hfind, hb, if_true]
    exact hmap
  · intro hps hn
    have hb : verifyButtonEnabled p = true := by simp [verifyButtonEnabled, hps]
    have hn2 : (jsTrim n == "") = false := by
      simpa using hn
    have hmap : findById (s.payments.map (fun q => if q.id == pid then rejectUpdate a n q else q)) pid
        = some (rejectUpdate a n p) := by
      rw [findById_map_update s.payments pid (rejectUpdate a n) (fun q => rfl), hfind]
      rfl
    refine ⟨?_, rfl⟩
    simp only [uiRejectPayment, hfind, hb, hn2]
    simpa using hmap

/-- C3 witness: on a store holding the concrete rejected payment the UI
verify and reject actions change nothing, and on the pending payment verify
produces status success. -/
theorem c3_amended_witness :
    (uiVerifyPayment { payments := [cRejectedPay], userPlans := [] } "doc1" "a@b.c" ""
        = { payments := [cRejectedPay], userPlans := [] }
      ∧ uiRejectPayment { payments := [cRejectedPay], userPlans := [] } "doc1" "a@b.c" ""
        = { payments := [cRejectedPay], userPlans := [] })
    ∧ (findById (uiVerifyPayment { payments := [cPendingPay], userPlans := [] } "doc1" "a@b.c" "").payments "doc1"
        = some (verifyUpdate "a@b.c" "" cPendingPay)
      ∧ (verifyUpdate "a@b.c" "" cPendingPay).status = .successPay) :=
  ⟨(c3_amended_ui_transitions_only_from_pending
      { payments := [cRejectedPay], userPlans := [] } "doc1" "a@b.c" "" cRejectedPay (by decide)).1
      (by decide),
   (c3_amended_ui_transitions_only_from_pending
      { payments := [cPendingPay], userPlans := [] } "doc1" "a@b.c" "" cPendingPay (by decide)).2.1
      (by decide)⟩

/-- C5 counterexample: the claim says verifying a payment never creates an
EntitlementRecord.  The service-level verify, updatePaymentStatus with
success, runs createUserPlanFromPayment and appends a userPlans record. -/
theorem c5_counterexample_service_verify_creates_plan :
    ((updatePaymentStatus "doc1" .successPay (some "a@b.c") none d0 d0
        { payments := [cPendingPay], userPlans := [] }).2).userPlans.length = 1 := by
  decide

/-- C5 as amended: the verify and reject actions wired in the admin UI
(handleVerifyPayment and handleRejectPayment write the payments document
directly) leave the userPlans entitlement store exactly as it was; only the
unused service path updatePaymentStatus would create a plan automatically. -/
theorem c5_amended_ui_actions_leave_entitlements (s : SysState) (pid a n : String) :
    (uiVerifyPayment s pid a n).userPlans = s.userPlans
    ∧ (uiRejectPayment s pid a n).userPlans = s.userPlans := by
  constructor
  · unfold uiVerifyPayment
    cases findById s.payments pid with
    | none => rfl
    | some p =>
      by_cases hb : verifyButtonEnabled p = true
      · simp [hb]
      · simp only [Bool.not_eq_true] at hb
        simp [hb]
  · unfold uiRejectPayment
    cases findById s.payments pid with
    | none => rfl
    | some p =>
      by_cases hb : (verifyButtonEnabled p && !(jsTrim n == "")) = true
      · simp [hb]
      · simp only [Bool.not_eq_true] at hb
        simp [hb]

/-- C4: when the role re-derived from the caller JWT is not admin, every one
of setCustomClaims, updateCustomClaims and deleteCustomClaims fails with the
access-denied error before anything is sent: the request log (and hence the
external claims snapshot, a function of the requests the external service
receives) is unchanged.  The quantification over arbitrary input claims c
and pc shows the decision never consults a client-supplied role value. -/
theorem c4_non_admin_denied_no_write (env : AuthEnv) (uid : String) (c : CustomClaims)
    (pc : PartialClaims) (fields : List String) (log : List CCRequest)
    (h : getUserRoleFromToken env ≠ some "admin") :
    runClaimsCall (setCustomClaims env uid c) log
        = (.error (.accessDenied "Access denied: Only admin users can set custom claims"), log)
    ∧ runClaimsCall (updateCustomClaims env uid pc) log
        = (.error (.accessDenied "Access denied: Only admin users can update custom claims"), log)
    ∧ runClaimsCall (deleteCustomClaims env uid fields) log
        = (.error (.accessDenied "Access denied: Only admin users can delete custom claims"), log) := by
  refine ⟨?_, ?_, ?_⟩
  · simp [runClaimsCall, setCustomClaims, h]
  · simp [runClaimsCall, updateCustomClaims, h]
  · simp [runClaimsCall, deleteCustomClaims, h]

/-- C4 witness: the concrete non-admin caller is denied on all three calls
and the empty request log stays empty. -/
theorem c4_witness :
    runClaimsCall (setCustomClaims nonAdminEnv "u2" cClaims) []
        = (.error (.accessDenied "Access denied: Only admin users can set custom claims"), [])
    ∧ runClaimsCall (updateCustomClaims nonAdminEnv "u2" cPartial) []
        = (.error (.accessDenied "Access denied: Only admin users can update custom claims"), [])
    ∧ runClaimsCall (deleteCustomClaims nonAdminEnv "u2" ["role"]) []
        = (.error (.accessDenied "Access denied: Only admin users can delete custom claims"), []) :=
  c4_non_admin_denied_no_write nonAdminEnv "u2" cClaims cPartial ["role"] [] (by decide)

/-- C6 counterexample: the claim requires duration("Unknown Plan", 999) to be
one year in every place a validity window or claims end date is computed.
The claims end date in createCustomClaimsFromPayment uses the fixed
plan-name table with default one month: for "Unknown Plan" it advances the
start by one month, while the userPlans window computation advances by one
year, and the two dates differ. -/
theorem c6_counterexample_claims_end_date_one_month :
    (createCustomClaimsFromPayment d0 "Unknown Plan").end_date = addOneMonth d0
    ∧ applyDuration d0 (calculateDuration "Unknown Plan" 999) = addOneYear d0
    ∧ addOneMonth d0 ≠ addOneYear d0 := by
  decide

/-- C6 as amended: the userPlans window computation (shared by
addPaymentToUserPlans and createUserPlanFromPayment) follows the spec rule
list with first-match-wins precedence, including the worked examples and the
one-year default; the claims end date in createCustomClaimsFromPayment
instead comes from a fixed name table (1 or 12 months for known names)
defaulting to one month for unknown names, ignoring the amount. -/
theorem c6_amended_duration_rules :
    (∀ (planName : String) (amount : Nat),
      calculateDuration planName amount = specDuration planName amount)
    ∧ calculateDuration "Premium - Monthly (₹449)" 449 = .oneMonth
    ∧ calculateDuration "Premium - Yearly (₹4308)" 4308 = .oneYear
    ∧ calculateDuration "AI Fundamentals (₹30000)" 30000 = .oneYear
    ∧ calculateDuration "Unknown Plan" 999 = .oneYear
    ∧ claimsDurationMonths "Premium - Monthly (₹449)" = 1
    ∧ claimsDurationMonths "Premium - Yearly (₹4308)" = 12
    ∧ claimsDurationMonths "Unknown Plan" = 1 := by
  refine ⟨fun planName amount => rfl, ?_, ?_, ?_, ?_, ?_, ?_, ?_⟩ <;> decide

/-- C7 counterexample: the claim says the wired drift read path produces a
missing-activation entry for every success payment whose dedup key no
stored plan shares.  The component filters success payments out of the list
before calling checkPaymentsInUserPlans, so for a ledger holding one success
payment and an empty plans store the wired path produces no entry at all. -/
theorem c7_counterexample_wired_path_reports_nothing :
    cSuccessPay.status = .successPay
    ∧ existingPlanKeys [] = []
    ∧ wiredDriftCheck [] [cSuccessPay] (payKey cSuccessPay) = none := by
  decide

/-- C7 as amended: on the payment list it is handed, checkPaymentsInUserPlans
gives every success payment an entry keyed by its dedup key whose value
records whether some qualifying stored plan shares the key (value false is
the missing-activation report), and every entry of the map comes from a
success payment of the list — never from a pending or rejected one.  The
function is a pure read: it returns only the map.  However the component
invokes it on a list from which success payments were already filtered out. -/
theorem c7_amended_drift_function_reports (plans : List UserPlan)
    (payments : List PaymentData) (p : PaymentData) (k : String) (b : Bool) :
    (p ∈ payments → p.status = .successPay →
      checkPaymentsInUserPlans plans payments (payKey p)
        = some ((existingPlanKeys plans).contains (payKey p)))
    ∧ (checkPaymentsInUserPlans plans payments k = some b →
      ∃ q, q ∈ payments ∧ q.status = .successPay ∧ payKey q = k) := by
  constructor
  · intro hmem hs
    exact driftStep_present (existingPlanKeys plans) payments (fun _ => none) p hmem hs
  · intro hsome
    have hiss : ((payments.foldl (driftStep (existingPlanKeys plans)) (fun _ => none)) k).isSome := by
      unfold checkPaymentsInUserPlans at hsome
      rw [hsome]
      rfl
    rcases driftStep_sound (existingPlanKeys plans) payments (fun _ => none) k hiss with hm | h
    · cases hm
    · exact h

/-- C7 witness: handed the concrete success payment directly, the function
reports it as missing (value false) on the empty plans store. -/
theorem c7_amended_witness :
    checkPaymentsInUserPlans [] [cSuccessPay] (payKey cSuccessPay) = some false :=
  (c7_amended_drift_function_reports [] [cSuccessPay] cSuccessPay "" false).1
    (List.mem_singleton.mpr rfl) rfl

/-- C8: handleRejectPayment with a reason that trims to empty (or with no
selected payment) reports the validation error and writes nothing, leaving
every stored record unchanged; with a selected pending payment and a
non-blank reason it writes status rejected (with the trimmed reason as
remarks) to that document. -/
theorem c8_reject_blank_reason_validation (selected : Option PaymentData)
    (adminEmail notes : String) (payments : List PaymentData) (p : PaymentData) :
    (jsTrim notes = "" →
      (handleRejectPayment selected adminEmail notes payments).1 = .validationError
      ∧ (handleRejectPayment selected adminEmail notes payments).2 = payments)
    ∧ (selected = some p → p.status = .pendingPay → jsTrim notes ≠ "" →
      (handleRejectPayment selected adminEmail notes payments).1 = .rejectedDone
      ∧ findById (handleRejectPayment selected adminEmail notes payments).2 p.id
          = (findById payments p.id).map (rejectUpdate adminEmail notes)
      ∧ (rejectUpdate adminEmail notes p).status = .rejectedPay) := by
  constructor
  · intro hblank
    cases selected with
    | none => exact ⟨rfl, rfl⟩
    | some q =>
      constructor
      · simp [handleRejectPayment, hblank]
      · simp [handleRejectPayment, hblank]
  · intro hsel hps hn
    subst hsel
    have hn2 : (jsTrim notes == "") = false := by simpa using hn
    refine ⟨?_, ?_, rfl⟩
    · simp [handleRejectPayment, hn2]
    · simp only [handleRejectPayment, hn2, Bool.false_eq_true, if_false]
      exact findById_map_update payments p.id (rejectUpdate adminEmail notes) (fun q => rfl)

/-- C8 witness: a whitespace-only reason is refused without a write, and a
non-blank reason rejects the concrete pending payment. -/
theorem c8_witness :
    ((handleRejectPayment (some cPendingPay) "a@b.c" "   " [cPendingPay]).1 = .validationError
      ∧ (handleRejectPayment (some cPendingPay) "a@b.c" "   " [cPendingPay]).2 = [cPendingPay])
    ∧ (handleRejectPayment (some cPendingPay) "a@b.c" " fraud " [cPendingPay]).1 = .rejectedDone :=
  ⟨(c8_reject_blank_reason_validation (some cPendingPay) "a@b.c" "   " [cPendingPay] cPendingPay).1
      (by decide),
   ((c8_reject_blank_reason_validation (some cPendingPay) "a@b.c" " fraud " [cPendingPay] cPendingPay).2
      rfl rfl (by decide)).1⟩

/-- C9 counterexample: the claim says the duration computation takes now as
an explicit argument and its window is a function of (planName, amount,
now).  The source instead samples the clock internally twice (lines 92-93 of
userPlanService.ts): with the same first sample but different second samples
the produced windows differ, so the window is not determined by
(planName, amount, now). -/
theorem c9_counterexample_second_sample_matters :
    computeWindow "Unknown Plan" 999 d0 d0
      ≠ computeWindow "Unknown Plan" 999 d0 (addOneMonth d0) := by
  decide

/-- C9 as amended: modelling the two internal clock samples as explicit
arguments, the computation is pure and deterministic: the window is exactly
startDate = the first sample and expiryDate = the second sample advanced by
the spec duration rules; when the two samples coincide this is the window
{startDate: now, expiryDate: now + duration} the spec describes. -/
theorem c9_amended_window_deterministic (planName : String) (amount : Nat) (now base : Date) :
    computeWindow planName amount now base
      = { startDate := now, expiryDate := applyDuration base (specDuration planName amount) } :=
  rfl

/-- C10: the role transmitted by setCustomClaims and updateCustomClaims is
the caller role decoded from the caller JWT: the role supplied in the input
claims never reaches the request (replacing it changes nothing), and every
request a successful call emits carries role admin. -/
theorem c10_role_overwritten_with_caller_role (env : AuthEnv) (uid : String)
    (c : CustomClaims) (pc : PartialClaims) (r1 r2 : String) (o1 o2 : Option String)
    (req requ : CCRequest) :
    (setCustomClaims env uid { c with role := r1 }
      = setCustomClaims env uid { c with role := r2 })
    ∧ (updateCustomClaims env uid { pc with role := o1 }
      = updateCustomClaims env uid { pc with role := o2 })
    ∧ (setCustomClaims env uid c = .ok req → sentRole req = some "admin")
    ∧ (updateCustomClaims env uid pc = .ok requ → sentRole requ = some "admin") := by
  by_cases hadm : getUserRoleFromToken env = some "admin"
  · refine ⟨?_, ?_, ?_, ?_⟩
    · simp [setCustomClaims, hadm]
    · simp [updateCustomClaims, hadm]
    · intro hok
      simp only [setCustomClaims, hadm] at hok
      simp at hok
      rw [← hok]
      simp [sentRole, hadm]
    · intro hok
      simp only [updateCustomClaims, hadm] at hok
      simp at hok
      rw [← hok]
      simp [sentRole, hadm]
  · refine ⟨?_, ?_, ?_, ?_⟩
    · simp [setCustomClaims, hadm]
    · simp [updateCustomClaims, hadm]
    · intro hok
      simp [setCustomClaims, hadm] at hok
    · intro hok
      simp [updateCustomClaims, hadm] at hok

/-- C10 witness: the admin caller submits claims whose role the operator set
to "user"; the request actually sent carries role admin. -/
theorem c10_witness : sentRole cSetReq = some "admin" :=
  (c10_role_overwritten_with_caller_role adminEnv "u2" cClaims cPartial "user" "x" none none
    cSetReq cSetReq).2.2.1 (by rfl)

end AICarrierAdmin
